import Mathlib

/-!
Shallow embedding of `libs/libcommon/src/Backtrace.cpp` (Linux x86-64 build:
`USE_UNWIND` and the no-unwind fallback are both modelled, the architecture
gates are resolved to `__x86_64__ && !__FreeBSD__ && !__APPLE__`, and the
Linux-specific `BUS_MCEERR_AR` / `BUS_MCEERR_AO` cases are present).

Machine pointers (`void *`, `unw_word_t`) are modelled as `Nat`; C `int`
values (signal numbers, `si_code`, return codes) as `Int`.  External library
calls (`libunwind`, `backtrace_symbols`, `abi::__cxa_demangle`) are modelled
as explicit functional parameters, since their code is not part of this
repository.
-/

/-- The fields of `ucontext_t` that `Backtrace.cpp` reads on Linux x86-64:
`uc_mcontext.gregs[REG_ERR]` and `uc_mcontext.gregs[REG_RIP]`. -/
structure ucontext_t where
  err : Nat
  rip : Nat
deriving DecidableEq, Repr

/-- The fields of `siginfo_t` that `Backtrace.cpp` reads: `si_addr` (a
`void *`, whose null value is the number 0) and `si_code` (a C `int`). -/
structure siginfo_t where
  si_addr : Nat
  si_code : Int
deriving DecidableEq, Repr

/-- How libstdc++'s `operator<<(std::ostream &, const void *)` renders a
pointer: `0` for a null pointer, otherwise `0x` followed by lowercase
hexadecimal digits. -/
def ptrStr (p : Nat) : String :=
  if p = 0 then "0" else "0x" ++ ⟨Nat.toDigits 16 p⟩

/-- Linux signal numbers used by the `switch (sig)` in
`signalToErrorMessage`. -/
def SIGILL : Int := 4
def SIGBUS : Int := 7
def SIGFPE : Int := 8
def SIGSEGV : Int := 11

/-- `signalToErrorMessage(int sig, siginfo_t & info, ucontext_t & context)`.
The `si_code` constants are the Linux values: `SEGV_MAPERR=1, SEGV_ACCERR=2`;
`BUS_ADRALN=1, BUS_ADRERR=2, BUS_OBJERR=3, BUS_MCEERR_AR=4, BUS_MCEERR_AO=5`;
`ILL_ILLOPC=1, ILL_ILLOPN=2, ILL_ILLADR=3, ILL_ILLTRP=4, ILL_PRVOPC=5,
ILL_PRVREG=6, ILL_COPROC=7, ILL_BADSTK=8`; `FPE_INTDIV=1, FPE_INTOVF=2,
FPE_FLTDIV=3, FPE_FLTOVF=4, FPE_FLTUND=5, FPE_FLTRES=6, FPE_FLTINV=7,
FPE_FLTSUB=8`.  The C `switch` has no `default:` case, so any other signal
leaves the stream empty. -/
def signalToErrorMessage (sig : Int) (info : siginfo_t) (context : ucontext_t) : String :=
  if sig = SIGSEGV then
    (if info.si_addr = 0 then "Address: NULL pointer."
     else "Address: " ++ ptrStr info.si_addr)
    ++ (if context.err &&& 2 ≠ 0 then " Access: write." else " Access: read.")
    ++ (if info.si_code = 2 then
          " Attempted access has violated the permissions assigned to the memory area."
        else if info.si_code = 1 then " Address not mapped to object."
        else " Unknown si_code.")
  else if sig = SIGBUS then
    (if info.si_code = 1 then "Invalid address alignment."
     else if info.si_code = 2 then "Non-existant physical address."
     else if info.si_code = 3 then "Object specific hardware error."
     else if info.si_code = 4 then "Hardware memory error: action required."
     else if info.si_code = 5 then "Hardware memory error: action optional."
     else "Unknown si_code.")
  else if sig = SIGILL then
    (if info.si_code = 1 then "Illegal opcode."
     else if info.si_code = 2 then "Illegal operand."
     else if info.si_code = 3 then "Illegal addressing mode."
     else if info.si_code = 4 then "Illegal trap."
     else if info.si_code = 5 then "Privileged opcode."
     else if info.si_code = 6 then "Privileged register."
     else if info.si_code = 7 then "Coprocessor error."
     else if info.si_code = 8 then "Internal stack error."
     else "Unknown si_code.")
  else if sig = SIGFPE then
    (if info.si_code = 1 then "Integer divide by zero."
     else if info.si_code = 2 then "Integer overflow."
     else if info.si_code = 3 then "Floating point divide by zero."
     else if info.si_code = 4 then "Floating point overflow."
     else if info.si_code = 5 then "Floating point underflow."
     else if info.si_code = 6 then "Floating point inexact result."
     else if info.si_code = 7 then "Floating point invalid operation."
     else if info.si_code = 8 then "Subscript out of range."
     else "Unknown si_code.")
  else ""

/-- The `for (size_t i = 0; i < max_frames; ++i)` loop of
`backtraceLibUnwind`, with the libunwind cursor abstracted to a type `C`:
`getIP` models `unw_get_reg(&cursor, UNW_REG_IP, &ip)` and `stepFn` models
`unw_step(&cursor)` (new cursor state plus the `int` return value; the C
code breaks only when that value is 0, matching `if (!unw_step(&cursor))`).
The remaining iteration count is the structural fuel. -/
def unwindLoop {C : Type} (getIP : C → Nat) (stepFn : C → C × Int) : Nat → C → List Nat
  | 0, _ => []
  | fuel + 1, cursor =>
    getIP cursor ::
      (let s := stepFn cursor
       if s.2 = 0 then [] else unwindLoop getIP stepFn fuel s.1)

/-- `backtraceLibUnwind(size_t max_frames, ucontext_t & context)`.  The
machine context enters through the abstract unwinder state: `c0` is the
cursor produced by `unw_init_local2(&cursor, &context, UNW_INIT_SIGNAL_FRAME)`
and `initRet` its return value; the C code walks only when `initRet >= 0`. -/
def backtraceLibUnwind {C : Type} (max_frames : Nat) (c0 : C) (initRet : Int)
    (getIP : C → Nat) (stepFn : C → C × Int) : List Nat :=
  if initRet ≥ 0 then unwindLoop getIP stepFn max_frames c0 else []

/-- `getBacktraceFrames(ucontext_t & context)` in the `USE_UNWIND` build:
`static size_t max_frames = 50; frames = backtraceLibUnwind(max_frames, context);`. -/
def getBacktraceFrames {C : Type} (c0 : C) (initRet : Int)
    (getIP : C → Nat) (stepFn : C → C × Int) : List Nat :=
  backtraceLibUnwind 50 c0 initRet getIP stepFn

/-- `getCallerAddress(ucontext_t & context)` on Linux x86-64:
`reinterpret_cast<void *>(context.uc_mcontext.gregs[REG_RIP])`. -/
def getCallerAddress (context : ucontext_t) : Nat :=
  context.rip

/-- `getCallerAddress` on an architecture outside the supported set
(neither `__x86_64__` nor `__aarch64__`): falls through to `return nullptr;`. -/
def getCallerAddressUnsupported (_ : ucontext_t) : Nat :=
  0

/-- `getBacktraceFrames(ucontext_t & context)` in the fallback
(`!USE_UNWIND`) build: push `getCallerAddress(context)` only when it is
non-null. -/
def getBacktraceFramesNoUnwind (context : ucontext_t) : List Nat :=
  let caller_address := getCallerAddress context
  if caller_address ≠ 0 then [caller_address] else []

/-- The fallback build of `getBacktraceFrames` on an unsupported
architecture, where `getCallerAddress` returns null. -/
def getBacktraceFramesNoUnwindUnsupported (context : ucontext_t) : List Nat :=
  let caller_address := getCallerAddressUnsupported context
  if caller_address ≠ 0 then [caller_address] else []

/-- `strchr`: index of the first occurrence of `c` in the character list,
or `none`. -/
def findCharIdx (c : Char) : List Char → Option Nat
  | [] => none
  | d :: t => if d = c then some 0 else (findCharIdx c t).map (· + 1)

/-- The delimiter scan of `backtraceFramesToString`:
`name_start = strchr(symbols[i], '(')` then `name_end = strchr(name_start, '+')`.
Returns the index `p` of the first `'('` and the absolute index `pq` of the
first `'+'` at or after it, or `none` when either scan fails. -/
def extractMangled (cs : List Char) : Option (Nat × Nat) :=
  match findCharIdx '(' cs with
  | none => none
  | some p =>
    match findCharIdx '+' (cs.drop p) with
    | none => none
    | some q => some (p, p + q)

/-- The per-frame text emitted after the `i << ". "` index prefix.  With
`p`/`pq` from `extractMangled`, the mangled name handed to
`abi::__cxa_demangle` is the substring strictly between the `'('` (index
`p`) and the `'+'` (index `pq`).  On demangle success the C code writes the
prefix of the symbol line up to and including the `'('`
(`backtrace.write(symbols[i], name_start - symbols[i])`), the demangled
name, then the rest of the line from the `'+'` on (`<< name_end`) — and no
delimiter.  In every other case it writes the raw line and the delimiter
(`backtrace << symbols[i] << delimiter`). -/
def frameRest (demangle : String → Option String) (delimiter : String) (sym : String) : String :=
  let cs := sym.toList
  match extractMangled cs with
  | none => sym ++ delimiter
  | some (p, pq) =>
    match demangle ⟨(cs.drop (p + 1)).take (pq - (p + 1))⟩ with
    | none => sym ++ delimiter
    | some demangled_name =>
      (⟨cs.take (p + 1)⟩ : String) ++ demangled_name ++ (⟨cs.drop pq⟩ : String)

/-- One full line of the loop body: `backtrace << i << ". "` followed by
`frameRest`. -/
def frameLine (demangle : String → Option String) (delimiter : String)
    (i : Nat) (sym : String) : String :=
  toString i ++ ". " ++ frameRest demangle delimiter sym

/-- The lines produced by the `for (size_t i = 0; i < frames.size(); ++i)`
loop.  The loop body reads `symbols[i]`; `backtrace_symbols` returns exactly
`frames.size()` entries, so on the C side the two lengths agree, and `take
frames.length` records that the iteration count is the frame count. -/
def backtraceLines (demangle : String → Option String) (delimiter : String)
    (frames : List Nat) (syms : List String) : List String :=
  (syms.take frames.length).enum.map fun p => frameLine demangle delimiter p.1 p.2

/-- `backtraceFramesToString(const std::vector<void *> & frames, const std::string & delimiter)`.
`symbols = none` models `backtrace_symbols` returning `NULL`; `demangle`
models `abi::__cxa_demangle`, with `none` covering both a null result and a
nonzero status. -/
def backtraceFramesToString (demangle : String → Option String)
    (frames : List Nat) (symbols : Option (List String)) (delimiter : String) : String :=
  match symbols with
  | none =>
    if frames.length > 0 then
      "No symbols could be found for backtrace starting at " ++ ptrStr (frames.headD 0)
    else ""
  | some syms => String.join (backtraceLines demangle delimiter frames syms)

/-- Boolean substring test on character lists (used to state "contains" /
"never contains" properties of rendered text). -/
def occursIn (pat : List Char) : List Char → Bool
  | [] => pat.isEmpty
  | c :: t => pat.isPrefixOf (c :: t) || occursIn pat t

/-! ## Helper lemmas -/

lemma unwindLoop_length_le {C : Type} (getIP : C → Nat) (stepFn : C → C × Int) :
    ∀ (fuel : Nat) (c : C), (unwindLoop getIP stepFn fuel c).length ≤ fuel := by
  intro fuel
  induction fuel with
  | zero => intro c; simp [unwindLoop]
  | succ n ih =>
    intro c
    by_cases h : (stepFn c).2 = 0 <;> simp [unwindLoop, h]
    exact ih _

lemma unwindLoop_length_always_step {C : Type} (getIP : C → Nat) :
    ∀ (fuel : Nat) (c : C),
      (unwindLoop getIP (fun c => (c, (1 : Int))) fuel c).length = fuel := by
  intro fuel
  induction fuel with
  | zero => intro c; simp [unwindLoop]
  | succ n ih => intro c; simp [unwindLoop, ih]

/-! ## Claims -/

/-- Claim C2: for every machine context (modelled by an arbitrary unwinder
state: initial cursor, init return value, register read and step functions),
`getBacktraceFrames` in the `USE_UNWIND` build returns at most 50 frames;
and with a pathological self-referential unwinder whose step always succeeds
with the same cursor, it still terminates, returning exactly the 50-frame
bound. -/
theorem getBacktraceFrames_length_le_50 :
    (∀ (C : Type) (c0 : C) (initRet : Int) (getIP : C → Nat) (stepFn : C → C × Int),
      (getBacktraceFrames c0 initRet getIP stepFn).length ≤ 50)
    ∧ (∀ (C : Type) (c0 : C) (getIP : C → Nat),
      (getBacktraceFrames c0 0 getIP (fun c => (c, (1 : Int)))).length = 50) := by
  constructor
  · intro C c0 initRet getIP stepFn
    unfold getBacktraceFrames backtraceLibUnwind
    by_cases h : initRet ≥ 0 <;> simp [h]
    exact unwindLoop_length_le getIP stepFn 50 c0
  · intro C c0 getIP
    unfold getBacktraceFrames backtraceLibUnwind
    simp [unwindLoop_length_always_step getIP 50 c0]

/-- Claim C7: when the unwinder cursor fails to initialize (negative init
return value), the `USE_UNWIND` build of `getBacktraceFrames` returns the
empty frame list; and the no-unwind build always returns either the empty
list or the single frame holding `getCallerAddress`.  Both are total
functions: no error is signalled, the degradation is only a shorter
result. -/
theorem getBacktraceFrames_degrades_on_init_failure :
    (∀ (C : Type) (c0 : C) (initRet : Int) (getIP : C → Nat) (stepFn : C → C × Int),
      initRet < 0 → getBacktraceFrames c0 initRet getIP stepFn = [])
    ∧ (∀ context : ucontext_t,
      getBacktraceFramesNoUnwind context = []
      ∨ getBacktraceFramesNoUnwind context = [getCallerAddress context]) := by
  constructor
  · intro C c0 initRet getIP stepFn h
    unfold getBacktraceFrames backtraceLibUnwind
    simp [not_le.mpr h]
  · intro context
    unfold getBacktraceFramesNoUnwind
    by_cases h : getCallerAddress context ≠ 0 <;> simp [h]

/-- Witness for C7 at a concrete failed initialization (`initRet = -1`,
cursor state `Unit`) and a concrete machine context. -/
theorem getBacktraceFrames_degrades_on_init_failure_witness :
    getBacktraceFrames (C := Unit) () (-1) (fun _ => 7) (fun c => (c, (1 : Int))) = []
    ∧ (getBacktraceFramesNoUnwind ⟨0, 9⟩ = []
       ∨ getBacktraceFramesNoUnwind ⟨0, 9⟩ = [getCallerAddress ⟨0, 9⟩]) :=
  ⟨getBacktraceFrames_degrades_on_init_failure.1 Unit () (-1) (fun _ => 7)
      (fun c => (c, (1 : Int))) (by decide),
   getBacktraceFrames_degrades_on_init_failure.2 ⟨0, 9⟩⟩

/-- Claim C8: for every signal number other than `SIGSEGV`, `SIGBUS`,
`SIGILL` and `SIGFPE`, and every `siginfo_t` and `ucontext_t`,
`signalToErrorMessage` returns the empty string (the C `switch` has no
`default:` case). -/
theorem signalToErrorMessage_other_signals_empty
    (sig : Int) (info : siginfo_t) (context : ucontext_t)
    (h1 : sig ≠ SIGSEGV) (h2 : sig ≠ SIGBUS) (h3 : sig ≠ SIGILL) (h4 : sig ≠ SIGFPE) :
    signalToErrorMessage sig info context = "" := by
  simp [signalToErrorMessage, h1, h2, h3, h4]

/-- Witness for C8 at signal 6 (`SIGABRT`), which is outside the four
specialized signals. -/
theorem signalToErrorMessage_other_signals_empty_witness :
    signalToErrorMessage 6 ⟨16, 1⟩ ⟨2, 3⟩ = "" :=
  signalToErrorMessage_other_signals_empty 6 ⟨16, 1⟩ ⟨2, 3⟩
    (by decide) (by decide) (by decide) (by decide)

/-- Claim C9: in the fallback (no-unwind) build, a machine context whose
instruction-pointer register is numerically zero yields the empty frame
list, exactly as on an unsupported architecture (where `getCallerAddress`
returns null): the null caller address fails the `if (caller_address)`
test, so a fault at address zero never contributes a frame. -/
theorem getBacktraceFramesNoUnwind_zero_ip_empty
    (context : ucontext_t) (h : context.rip = 0) :
    getBacktraceFramesNoUnwind context = []
    ∧ getBacktraceFramesNoUnwind context = getBacktraceFramesNoUnwindUnsupported context := by
  simp [getBacktraceFramesNoUnwind, getBacktraceFramesNoUnwindUnsupported,
    getCallerAddress, getCallerAddressUnsupported, h]

/-- Witness for C9 at a concrete context with a zero instruction pointer. -/
theorem getBacktraceFramesNoUnwind_zero_ip_empty_witness :
    getBacktraceFramesNoUnwind ⟨5, 0⟩ = []
    ∧ getBacktraceFramesNoUnwind ⟨5, 0⟩ = getBacktraceFramesNoUnwindUnsupported ⟨5, 0⟩ :=
  getBacktraceFramesNoUnwind_zero_ip_empty ⟨5, 0⟩ rfl

/-- Counterexample for C1: the bad-physical-address bus-error code
(`BUS_ADRERR = 2`) produces the code's spelling "Non-existant physical
address.", not the spec's phrase "non-existent physical address"; and for
segmentation-violation an out-of-table fine-grained code does not produce
exactly "Unknown si_code." but a longer message with the address/access
preamble. -/
theorem signalToErrorMessage_adrerr_spelling :
    (signalToErrorMessage SIGBUS ⟨0, 2⟩ ⟨0, 0⟩ = "Non-existant physical address."
      ∧ ("Non-existant physical address." = "Non-existent physical address.") = False)
    ∧ (signalToErrorMessage SIGSEGV ⟨0, 99⟩ ⟨0, 0⟩
          = "Address: NULL pointer. Access: read. Unknown si_code."
      ∧ (signalToErrorMessage SIGSEGV ⟨0, 99⟩ ⟨0, 0⟩ = "Unknown si_code.") = False) := by
  exact ⟨⟨by decide, eq_false (by decide)⟩, by decide, eq_false (by decide)⟩

/-- Claim C1 (amended): `signalToErrorMessage` realizes the fine-grained
code tables of the four specialized signals exactly as the code spells
them. For bus-error, illegal-instruction and floating-point-exception the
CauseText is exactly the mapped phrase (with "Non-existant physical
address." for the bad-physical-address bus code), and exactly
"Unknown si_code." for any code outside the table; for
segmentation-violation the mapped phrase (or " Unknown si_code.") is the
final segment appended after the address/access preamble. -/
theorem signalToErrorMessage_code_tables :
    (∀ (addr : Nat) (ctx : ucontext_t),
      signalToErrorMessage SIGBUS ⟨addr, 1⟩ ctx = "Invalid address alignment."
      ∧ signalToErrorMessage SIGBUS ⟨addr, 2⟩ ctx = "Non-existant physical address."
      ∧ signalToErrorMessage SIGBUS ⟨addr, 3⟩ ctx = "Object specific hardware error."
      ∧ signalToErrorMessage SIGBUS ⟨addr, 4⟩ ctx = "Hardware memory error: action required."
      ∧ signalToErrorMessage SIGBUS ⟨addr, 5⟩ ctx = "Hardware memory error: action optional.")
    ∧ (∀ (addr : Nat) (ctx : ucontext_t),
      signalToErrorMessage SIGILL ⟨addr, 1⟩ ctx = "Illegal opcode."
      ∧ signalToErrorMessage SIGILL ⟨addr, 2⟩ ctx = "Illegal operand."
      ∧ signalToErrorMessage SIGILL ⟨addr, 3⟩ ctx = "Illegal addressing mode."
      ∧ signalToErrorMessage SIGILL ⟨addr, 4⟩ ctx = "Illegal trap."
      ∧ signalToErrorMessage SIGILL ⟨addr, 5⟩ ctx = "Privileged opcode."
      ∧ signalToErrorMessage SIGILL ⟨addr, 6⟩ ctx = "Privileged register."
      ∧ signalToErrorMessage SIGILL ⟨addr, 7⟩ ctx = "Coprocessor error."
      ∧ signalToErrorMessage SIGILL ⟨addr, 8⟩ ctx = "Internal stack error.")
    ∧ (∀ (addr : Nat) (ctx : ucontext_t),
      signalToErrorMessage SIGFPE ⟨addr, 1⟩ ctx = "Integer divide by zero."
      ∧ signalToErrorMessage SIGFPE ⟨addr, 2⟩ ctx = "Integer overflow."
      ∧ signalToErrorMessage SIGFPE ⟨addr, 3⟩ ctx = "Floating point divide by zero."
      ∧ signalToErrorMessage SIGFPE ⟨addr, 4⟩ ctx = "Floating point overflow."
      ∧ signalToErrorMessage SIGFPE ⟨addr, 5⟩ ctx = "Floating point underflow."
      ∧ signalToErrorMessage SIGFPE ⟨addr, 6⟩ ctx = "Floating point inexact result."
      ∧ signalToErrorMessage SIGFPE ⟨addr, 7⟩ ctx = "Floating point invalid operation."
      ∧ signalToErrorMessage SIGFPE ⟨addr, 8⟩ ctx = "Subscript out of range.")
    ∧ (∀ (addr : Nat) (ctx : ucontext_t),
      (∃ pre, signalToErrorMessage SIGSEGV ⟨addr, 2⟩ ctx
        = pre ++ " Attempted access has violated the permissions assigned to the memory area.")
      ∧ (∃ pre, signalToErrorMessage SIGSEGV ⟨addr, 1⟩ ctx
        = pre ++ " Address not mapped to object."))
    ∧ (∀ (addr : Nat) (ctx : ucontext_t) (c : Int), c ∉ ([1, 2, 3, 4, 5] : List Int) →
      signalToErrorMessage SIGBUS ⟨addr, c⟩ ctx = "Unknown si_code.")
    ∧ (∀ (addr : Nat) (ctx : ucontext_t) (c : Int),
        c ∉ ([1, 2, 3, 4, 5, 6, 7, 8] : List Int) →
      signalToErrorMessage SIGILL ⟨addr, c⟩ ctx = "Unknown si_code.")
    ∧ (∀ (addr : Nat) (ctx : ucontext_t) (c : Int),
        c ∉ ([1, 2, 3, 4, 5, 6, 7, 8] : List Int) →
      signalToErrorMessage SIGFPE ⟨addr, c⟩ ctx = "Unknown si_code.")
    ∧ (∀ (addr : Nat) (ctx : ucontext_t) (c : Int), c ∉ ([1, 2] : List Int) →
      ∃ pre, signalToErrorMessage SIGSEGV ⟨addr, c⟩ ctx = pre ++ " Unknown si_code.") := by
  refine ⟨?_, ?_, ?_, ?_, ?_, ?_, ?_, ?_⟩
  · intro addr ctx
    refine ⟨?_, ?_, ?_, ?_, ?_⟩ <;> simp [signalToErrorMessage, SIGBUS, SIGSEGV]
  · intro addr ctx
    refine ⟨?_, ?_, ?_, ?_, ?_, ?_, ?_, ?_⟩ <;>
      simp [signalToErrorMessage, SIGILL, SIGSEGV, SIGBUS]
  · intro addr ctx
    refine ⟨?_, ?_, ?_, ?_, ?_, ?_, ?_, ?_⟩ <;>
      simp [signalToErrorMessage, SIGFPE, SIGSEGV, SIGBUS, SIGILL]
  · intro addr ctx
    constructor
    · refine ⟨(if addr = 0 then "Address: NULL pointer."
          else "Address: " ++ ptrStr addr)
        ++ (if ctx.err &&& 2 ≠ 0 then " Access: write." else " Access: read."), ?_⟩
      simp [signalToErrorMessage, SIGSEGV, String.append_assoc]
    · refine ⟨(if addr = 0 then "Address: NULL pointer."
          else "Address: " ++ ptrStr addr)
        ++ (if ctx.err &&& 2 ≠ 0 then " Access: write." else " Access: read."), ?_⟩
      simp [signalToErrorMessage, SIGSEGV, String.append_assoc]
  · intro addr ctx c h
    simp only [List.mem_cons, List.mem_singleton, not_or] at h
    obtain ⟨h1, h2, h3, h4, h5, -⟩ := h
    simp [signalToErrorMessage, SIGBUS, SIGSEGV, h1, h2, h3, h4, h5]
  · intro addr ctx c h
    simp only [List.mem_cons, List.mem_singleton, not_or] at h
    obtain ⟨h1, h2, h3, h4, h5, h6, h7, h8, -⟩ := h
    simp [signalToErrorMessage, SIGILL, SIGSEGV, SIGBUS, h1, h2, h3, h4, h5, h6, h7, h8]
  · intro addr ctx c h
    simp only [List.mem_cons, List.mem_singleton, not_or] at h
    obtain ⟨h1, h2, h3, h4, h5, h6, h7, h8, -⟩ := h
    simp [signalToErrorMessage, SIGFPE, SIGSEGV, SIGBUS, SIGILL, h1, h2, h3, h4, h5, h6, h7, h8]
  · intro addr ctx c h
    simp only [List.mem_cons, List.mem_singleton, not_or] at h
    obtain ⟨h1, h2, -⟩ := h
    refine ⟨(if addr = 0 then "Address: NULL pointer."
        else "Address: " ++ ptrStr addr)
      ++ (if ctx.err &&& 2 ≠ 0 then " Access: write." else " Access: read."), ?_⟩
    simp [signalToErrorMessage, SIGSEGV, h1, h2, String.append_assoc]

/-- Witness for C1 at concrete out-of-table codes (code 99 for each of the
four signals), discharging the membership hypotheses. -/
theorem signalToErrorMessage_code_tables_witness :
    signalToErrorMessage SIGBUS ⟨0, 99⟩ ⟨0, 0⟩ = "Unknown si_code."
    ∧ signalToErrorMessage SIGILL ⟨0, 99⟩ ⟨0, 0⟩ = "Unknown si_code."
    ∧ signalToErrorMessage SIGFPE ⟨0, 99⟩ ⟨0, 0⟩ = "Unknown si_code."
    ∧ (∃ pre, signalToErrorMessage SIGSEGV ⟨0, 99⟩ ⟨0, 0⟩ = pre ++ " Unknown si_code.") := by
  obtain ⟨-, -, -, -, hbus, hill, hfpe, hsegv⟩ := signalToErrorMessage_code_tables
  exact ⟨hbus 0 ⟨0, 0⟩ 99 (by decide), hill 0 ⟨0, 0⟩ 99 (by decide),
    hfpe 0 ⟨0, 0⟩ 99 (by decide), hsegv 0 ⟨0, 0⟩ 99 (by decide)⟩

/-- Counterexample for C4: `si_addr` is a C pointer, so "no address" is the
null (numerically zero) pointer value — there is no separate encoding.  At
fault-address value zero the code renders "NULL pointer", not a literal
textual representation of the address: the output contains no "Address: 0"
token. -/
theorem signalToErrorMessage_zero_addr_is_null :
    signalToErrorMessage SIGSEGV ⟨0, 1⟩ ⟨0, 0⟩
      = "Address: NULL pointer. Access: read. Address not mapped to object."
    ∧ occursIn "Address: 0".toList
        (signalToErrorMessage SIGSEGV ⟨0, 1⟩ ⟨0, 0⟩).toList = false := by
  constructor <;> decide

/-- Claim C4 (amended): for a segmentation-violation whose fault address is
absent — i.e. the null pointer, which is the numeric value zero; the code
does not distinguish the two — the CauseText contains "NULL pointer" and no
raw address token ("0x" never occurs); a nonzero (present) fault address
renders as its literal textual representation "Address: " followed by the
pointer text. -/
theorem signalToErrorMessage_segv_null_pointer :
    (∀ (code : Int) (ctx : ucontext_t),
      occursIn "NULL pointer".toList
          (signalToErrorMessage SIGSEGV ⟨0, code⟩ ctx).toList = true
      ∧ occursIn "0x".toList
          (signalToErrorMessage SIGSEGV ⟨0, code⟩ ctx).toList = false)
    ∧ (∀ (addr : Nat) (code : Int) (ctx : ucontext_t), addr ≠ 0 →
      ∃ t, signalToErrorMessage SIGSEGV ⟨addr, code⟩ ctx
        = "Address: " ++ ptrStr addr ++ t) := by
  constructor
  · intro code ctx
    by_cases hw : ctx.err &&& 2 = 0 <;> by_cases h2 : code = 2 <;> by_cases h1 : code = 1 <;>
      (simp [signalToErrorMessage, SIGSEGV, hw, h1, h2]; decide)
  · intro addr code ctx h
    refine ⟨(if ctx.err &&& 2 ≠ 0 then " Access: write." else " Access: read.")
      ++ (if code = 2 then
            " Attempted access has violated the permissions assigned to the memory area."
          else if code = 1 then " Address not mapped to object."
          else " Unknown si_code."), ?_⟩
    simp [signalToErrorMessage, SIGSEGV, h, String.append_assoc]

/-- Witness for C4 at concrete inputs: a null fault address with code 2 and
a present fault address 0x10 with code 1. -/
theorem signalToErrorMessage_segv_null_pointer_witness :
    occursIn "NULL pointer".toList
        (signalToErrorMessage SIGSEGV ⟨0, 2⟩ ⟨0, 0⟩).toList = true
    ∧ (∃ t, signalToErrorMessage SIGSEGV ⟨16, 1⟩ ⟨0, 0⟩
        = "Address: " ++ ptrStr 16 ++ t) :=
  ⟨(signalToErrorMessage_segv_null_pointer.1 2 ⟨0, 0⟩).1,
   signalToErrorMessage_segv_null_pointer.2 16 1 ⟨0, 0⟩ (by decide)⟩

/-- Counterexample for C5: when `backtrace_symbols` returns `NULL`, the
output for a one-frame list is the single un-indexed notice
"No symbols could be found for backtrace starting at 0x5" — it contains no
indexed line at all (the marker "0. " occurs nowhere in it), so the output
does not contain exactly one indexed line. -/
theorem backtraceFramesToString_no_symbols_unindexed :
    backtraceFramesToString (fun _ => none) [5] none "\n"
      = "No symbols could be found for backtrace starting at 0x5"
    ∧ occursIn "0. ".toList
        (backtraceFramesToString (fun _ => none) [5] none "\n").toList = false := by
  constructor <;> decide

/-- Claim C5 (amended): when symbol resolution succeeds,
`backtraceFramesToString` is frame-count-preserving: the output is the
concatenation of exactly `frames.length` lines, the `i`-th starting with
its zero-based index marker `i ++ ". "`; when resolution fails the output
for a nonempty frame list is a single un-indexed notice; for the empty
frame list the output is the empty string under every resolution result. -/
theorem backtraceFramesToString_line_count
    (demangle : String → Option String) (delimiter : String)
    (frames : List Nat) (syms : List String)
    (h : syms.length = frames.length) :
    backtraceFramesToString demangle frames (some syms) delimiter
      = String.join (backtraceLines demangle delimiter frames syms)
    ∧ (backtraceLines demangle delimiter frames syms).length = frames.length
    ∧ (∀ (i : Nat) (hi : i < (backtraceLines demangle delimiter frames syms).length),
        ∃ t, (backtraceLines demangle delimiter frames syms).get ⟨i, hi⟩
          = toString i ++ ". " ++ t)
    ∧ (∀ (symres : Option (List String)),
        backtraceFramesToString demangle [] symres delimiter = "") := by
  refine ⟨rfl, ?_, ?_, ?_⟩
  · simp [backtraceLines, List.length_take, h]
  · intro i hi
    simp only [backtraceLines, List.get_eq_getElem, List.getElem_map, List.getElem_enum]
    exact ⟨frameRest demangle delimiter _, rfl⟩
  · intro symres
    cases symres <;> simp [backtraceFramesToString, backtraceLines, String.join]

/-- Witness for C5 at a concrete two-frame input with matching symbol
array. -/
theorem backtraceFramesToString_line_count_witness :
    backtraceFramesToString (fun _ => none) [1, 2] (some ["a(x+1)", "b"]) ";"
      = String.join (backtraceLines (fun _ => none) ";" [1, 2] ["a(x+1)", "b"])
    ∧ (backtraceLines (fun _ => none) ";" [1, 2] ["a(x+1)", "b"]).length = 2
    ∧ (∃ t, (backtraceLines (fun _ => none) ";" [1, 2] ["a(x+1)", "b"]).get
        ⟨0, by decide⟩ = toString 0 ++ ". " ++ t)
    ∧ backtraceFramesToString (fun _ => none) [] none ";" = "" := by
  obtain ⟨h1, h2, h3, h4⟩ :=
    backtraceFramesToString_line_count (fun _ => none) ";" [1, 2] ["a(x+1)", "b"] rfl
  exact ⟨h1, h2, h3 0 (by decide), h4 none⟩

/-- Claim C6: when demangling of a frame's extracted mangled name fails
(`abi::__cxa_demangle` returns null or a nonzero status, modelled by
`demangle` returning `none`), that frame's line is the raw resolved text
unchanged, index-prefixed and followed by the delimiter, and no error
propagates; moreover line `i` of the rendered output is determined by
symbol `i` alone, so a failure on one frame never affects the lines of the
remaining frames. -/
theorem backtraceFramesToString_demangle_failure_fallback :
    (∀ (demangle : String → Option String) (delimiter : String) (i : Nat)
        (s : String) (p pq : Nat),
      extractMangled s.toList = some (p, pq) →
      demangle ⟨(s.toList.drop (p + 1)).take (pq - (p + 1))⟩ = none →
      frameLine demangle delimiter i s = toString i ++ ". " ++ (s ++ delimiter))
    ∧ (∀ (demangle : String → Option String) (delimiter : String)
        (frames : List Nat) (syms : List String) (i : Nat)
        (hi : i < (backtraceLines demangle delimiter frames syms).length),
      (backtraceLines demangle delimiter frames syms).get ⟨i, hi⟩
        = frameLine demangle delimiter i
            ((syms.take frames.length).get ⟨i, by
              simpa [backtraceLines, List.enum_length] using hi⟩)) := by
  constructor
  · intro demangle delimiter i s p pq hext hdm
    have hext' : extractMangled s.data = some (p, pq) := hext
    have hdm' : demangle { data := (s.data.drop (p + 1)).take (pq - (p + 1)) } = none := hdm
    simp [frameLine, frameRest, hext', hdm']
  · intro demangle delimiter frames syms i hi
    simp [backtraceLines, List.get_eq_getElem, List.getElem_map, List.getElem_enum]

/-- Witness for C6: a concrete symbol line `a(_Zx+1)` whose extracted
mangled name `_Zx` is rejected by the demangler, inside a one-frame
render. -/
theorem backtraceFramesToString_demangle_failure_fallback_witness :
    frameLine (fun _ => none) ";" 0 "a(_Zx+1)"
      = toString 0 ++ ". " ++ ("a(_Zx+1)" ++ ";")
    ∧ (backtraceLines (fun _ => none) ";" [7] ["a(_Zx+1)"]).get ⟨0, by decide⟩
      = frameLine (fun _ => none) ";" 0
          ((["a(_Zx+1)"].take 1).get ⟨0, by decide⟩) :=
  ⟨backtraceFramesToString_demangle_failure_fallback.1
      (fun _ => none) ";" 0 "a(_Zx+1)" 1 5 (by decide) rfl,
   backtraceFramesToString_demangle_failure_fallback.2
      (fun _ => none) ";" [7] ["a(_Zx+1)"] 0 (by decide)⟩

/-- Claim C10: when a resolved symbol line has no `'('`, or no `'+'` at or
after the first `'('`, the mangled-name extraction degrades to passthrough:
for every demangler the emitted line is the frame index, the separator, the
raw resolved text unchanged, and the delimiter — demangling is never
consulted. -/
theorem backtraceFramesToString_passthrough_without_markers
    (delimiter : String) (i : Nat) (s : String)
    (h : findCharIdx '(' s.toList = none
      ∨ ∃ p, findCharIdx '(' s.toList = some p
          ∧ findCharIdx '+' (s.toList.drop p) = none) :
    ∀ demangle : String → Option String,
      frameLine demangle delimiter i s = toString i ++ ". " ++ (s ++ delimiter) := by
  intro demangle
  rcases h with h | ⟨p, hp, hplus⟩
  · have h' : findCharIdx '(' s.data = none := h
    simp [frameLine, frameRest, extractMangled, h']
  · have hp' : findCharIdx '(' s.data = some p := hp
    have hplus' : findCharIdx '+' (s.data.drop p) = none := hplus
    simp [frameLine, frameRest, extractMangled, hp', hplus']

/-- Witness for C10: a line with no `'('` at all, and a line with a `'('`
but no later `'+'`, both rendered as passthrough even under an
always-succeeding demangler. -/
theorem backtraceFramesToString_passthrough_without_markers_witness :
    frameLine (fun _ => some "X") ";" 7 "abc [0x1]"
      = toString 7 ++ ". " ++ ("abc [0x1]" ++ ";")
    ∧ frameLine (fun _ => some "X") ";" 2 "lib(fn [0x2]"
      = toString 2 ++ ". " ++ ("lib(fn [0x2]" ++ ";") :=
  ⟨backtraceFramesToString_passthrough_without_markers ";" 7 "abc [0x1]"
      (Or.inl (by decide)) (fun _ => some "X"),
   backtraceFramesToString_passthrough_without_markers ";" 2 "lib(fn [0x2]"
      (Or.inr ⟨3, by decide, by decide⟩) (fun _ => some "X")⟩

/-- Claim C3 evaluated at a failing input (code bug): with one frame whose
symbol line is `./prog(_Z1fv+0x1a) [0x42]` and a demangler that maps
`_Z1fv` to `f()`, the rendered line is `0. ./prog(f()+0x1a) [0x42]` — its
last character is `]`, not the delimiter `;`: the demangle-success branch
(`backtrace << demangled_name << name_end;`) omits the delimiter that the
raw branch appends, so a successfully demangled line does not end with the
caller-supplied delimiter.  The same input with a failing demangler does
end with the delimiter. -/
theorem backtraceFramesToString_demangled_line_missing_delimiter :
    backtraceFramesToString (fun s => if s = "_Z1fv" then some "f()" else none)
        [66] (some ["./prog(_Z1fv+0x1a) [0x42]"]) ";"
      = "0. ./prog(f()+0x1a) [0x42]"
    ∧ (("0. ./prog(f()+0x1a) [0x42]" : String).toList.getLast? == some ';') = false
    ∧ backtraceFramesToString (fun _ => none)
        [66] (some ["./prog(_Z1fv+0x1a) [0x42]"]) ";"
      = "0. ./prog(_Z1fv+0x1a) [0x42];" := by
  refine ⟨by decide, by decide, by decide⟩
